import Mathlib

/-!
Verification development for the softwarecollections repository
(softwarecollections/scls/forms.py and
softwarecollections/scls/migrations/0002_add_field_repo_slug.py).

The Django form classes are embedded as pure functions over explicit
environments: every external interaction (database reads, the Copr build
proxy, the filesystem) is an input of the environment, fallible calls are
values of `Except String _`, and side effects performed by a method are
returned as an explicit trace of `Effect`s.  The South migration is
embedded as a pair of operations on an explicit schema state.
-/

/-- A Django auth user, reduced to the field the forms use. -/
structure User where
  username : String
deriving DecidableEq, Repr

/-- A SoftwareCollection model instance, reduced to the fields touched by
the forms in forms.py. -/
structure SCL where
  maintainer : User
  name : String
  slug : String
  title : String
  copr_username : String
  copr_name : String
  policy : String
  tags : String
  collaborators : List User
deriving DecidableEq, Repr

/-- One observable side effect performed by a form method. -/
inductive Effect where
  | syncCoprTexts
  | makeDirs (path : String)
  | dbSave
  | syncCoprRepos
  | addAutoTags
  | collaboratorsAdd (u : User)
  | coprNamesLookup (username : String)
deriving DecidableEq, Repr

/-- Modelled from the spec: django.forms.forms.pretty_name, the framework
helper used by CreateForm.save to compute the title.  It replaces
underscores with spaces and capitalizes the result (first character
uppercased, remaining characters lowercased). -/
def prettyName (name : String) : String :=
  match name.data.map (fun c => if c = '_' then ' ' else c) with
  | [] => ""
  | c :: cs => String.mk (c.toUpper :: cs.map Char.toLower)

/-- Modelled from the spec: Django ModelForm.save(commit).  The framework
returns the instance built from the cleaned form data and persists it to
the database exactly when commit is true. -/
def modelFormSave (commit : Bool) (obj : SCL) : SCL × List Effect :=
  (obj, if commit then [Effect.dbSave] else [])

/-! ## CreateForm -/

/-- Environment of CreateForm.__init__: the request data, the database
lookup of the user's most recent collection, and the Copr proxy. -/
structure CreateInitEnv where
  /-- request.REQUEST of copr_username, when that key is present. -/
  requestCoprUsername : Option String
  /-- copr_username of the newest SoftwareCollection maintained by
  request.user; `none` when the query raises (no such collection). -/
  latestSclCoprUsername : Option String
  /-- request.user.get_username(). -/
  requestUserUsername : String
  /-- CoprProxy().coprnames. -/
  coprnames : String → List String

/-- The state CreateForm.__init__ leaves on the form. -/
structure CreateInitState where
  initialCoprUsername : String
  coprNameChoices : List (String × String)
deriving DecidableEq, Repr

/-- The copr_username CreateForm.__init__ resolves: the request value when
present, else the latest collection's value, else the user's username
(the bare except around the queryset lookup). -/
def CreateForm.resolvedCoprUsername (env : CreateInitEnv) : String :=
  match env.requestCoprUsername with
  | some c => c
  | none =>
    match env.latestSclCoprUsername with
    | some c => c
    | none => env.requestUserUsername

/-- CreateForm.__init__ (forms.py lines 34-54): resolves copr_username,
queries the Copr proxy for copr names only when it is truthy (non-empty),
and installs the resulting choice tuple on the copr_name widget.  The
returned trace records the Copr proxy calls made. -/
def CreateForm.init (env : CreateInitEnv) : CreateInitState × List Effect :=
  let cu := CreateForm.resolvedCoprUsername env
  if cu ≠ "" then
    ({ initialCoprUsername := cu,
       coprNameChoices := (env.coprnames cu).map (fun n => (n, n)) },
     [Effect.coprNamesLookup cu])
  else
    ({ initialCoprUsername := cu, coprNameChoices := [] }, [])

/-- Environment of CreateForm.save: the request user, the instance built
by the superclass from the cleaned data, and the outcomes of the external
calls the method makes. -/
structure CreateSaveEnv where
  requestUser : User
  /-- The instance super().save(False) returns, built from cleaned data. -/
  formObj : SCL
  /-- obj.get_repos_root(). -/
  reposRoot : String
  syncCoprTextsResult : Except String Unit
  makedirsResult : Except String Unit
  syncCoprReposResult : Except String Unit
  addAutoTagsResult : Except String Unit

/-- CreateForm.save (forms.py lines 56-67): builds the instance with
super().save(False), overwrites maintainer with request.user, sets
slug to maintainer.username/name and title to pretty_name(name), then
runs the cascade sync_copr_texts, os.makedirs(get_repos_root), obj.save,
sync_copr_repos, add_auto_tags, collaborators.add(maintainer).  The
commit parameter is accepted but never used.  Any exception from an
external call propagates as `Except.error`. -/
def CreateForm.save (env : CreateSaveEnv) (commit : Bool) :
    Except String (SCL × List Effect) :=
  let (obj, effs) := modelFormSave false env.formObj
  let obj := { obj with maintainer := env.requestUser }
  let obj := { obj with slug := obj.maintainer.username ++ "/" ++ obj.name }
  let obj := { obj with title := prettyName obj.name }
  match env.syncCoprTextsResult with
  | .error e => .error e
  | .ok _ =>
    let effs := effs ++ [Effect.syncCoprTexts]
    match env.makedirsResult with
    | .error e => .error e
    | .ok _ =>
      let effs := effs ++ [Effect.makeDirs env.reposRoot, Effect.dbSave]
      match env.syncCoprReposResult with
      | .error e => .error e
      | .ok _ =>
        let effs := effs ++ [Effect.syncCoprRepos]
        match env.addAutoTagsResult with
        | .error e => .error e
        | .ok _ =>
          let obj := { obj with collaborators :=
            if obj.maintainer ∈ obj.collaborators then obj.collaborators
            else obj.collaborators ++ [obj.maintainer] }
          .ok (obj,
            effs ++ [Effect.addAutoTags, Effect.collaboratorsAdd obj.maintainer])

/-- Model fields declared in CreateForm.Meta (forms.py lines 69-79). -/
def CreateForm.metaFields : List String :=
  ["copr_username", "copr_name", "maintainer", "name", "policy"]

/-- Extra form fields declared directly on the CreateForm class: none. -/
def CreateForm.declaredExtraFields : List String := []

/-- All fields CreateForm exposes. -/
def CreateForm.exposedFields : List String :=
  CreateForm.metaFields ++ CreateForm.declaredExtraFields

/-! ## UpdateForm -/

/-- Environment of UpdateForm.__init__. -/
structure UpdateInitEnv where
  /-- request.REQUEST of copr_username, when that key is present. -/
  requestCoprUsername : Option String
  /-- self.instance.copr_username. -/
  instanceCoprUsername : String
  /-- CoprProxy().coprnames, which may raise. -/
  coprnamesResult : String → Except String (List String)
  /-- self.instance.tags_edit_string(). -/
  instanceTagsEditString : String
  /-- self.instance.policy. -/
  instancePolicy : String

/-- The state UpdateForm.__init__ leaves on the form. -/
structure UpdateInitState where
  coprNameChoices : List (String × String)
  initialTags : String
  initialPolicy : String
deriving DecidableEq, Repr

/-- The copr_username UpdateForm.__init__ uses: the request value when
present, else the instance's value. -/
def UpdateForm.resolvedCoprUsername (env : UpdateInitEnv) : String :=
  match env.requestCoprUsername with
  | some c => c
  | none => env.instanceCoprUsername

/-- UpdateForm.__init__ (forms.py lines 88-99): calls the Copr proxy
unconditionally, with no exception handling, then installs the choice
tuple and the initial tags and policy values. -/
def UpdateForm.init (env : UpdateInitEnv) : Except String UpdateInitState :=
  match env.coprnamesResult (UpdateForm.resolvedCoprUsername env) with
  | .error e => .error e
  | .ok names =>
    .ok { coprNameChoices := names.map (fun n => (n, n)),
          initialTags := env.instanceTagsEditString,
          initialPolicy := env.instancePolicy }

/-- Environment of UpdateForm.save. -/
structure UpdateSaveEnv where
  /-- The instance super().save(commit) returns. -/
  formObj : SCL
  /-- self.cleaned_data of tags. -/
  cleanedTags : String
  syncCoprReposResult : Except String Unit
  addAutoTagsResult : Except String Unit

/-- UpdateForm.save (forms.py lines 101-106): super().save(commit), then
obj.tags = cleaned tags, obj.sync_copr_repos(), obj.add_auto_tags().
Unlike CreateForm.save it forwards commit to the superclass. -/
def UpdateForm.save (env : UpdateSaveEnv) (commit : Bool) :
    Except String (SCL × List Effect) :=
  let (obj, effs) := modelFormSave commit env.formObj
  let obj := { obj with tags := env.cleanedTags }
  match env.syncCoprReposResult with
  | .error e => .error e
  | .ok _ =>
    match env.addAutoTagsResult with
    | .error e => .error e
    | .ok _ => .ok (obj, effs ++ [Effect.syncCoprRepos, Effect.addAutoTags])

/-- Model fields declared in UpdateForm.Meta (forms.py lines 108-119). -/
def UpdateForm.metaFields : List String :=
  ["title", "description", "instructions", "policy", "copr_username",
   "copr_name", "auto_sync"]

/-- Extra form fields declared directly on the UpdateForm class: the
TagField named tags. -/
def UpdateForm.declaredExtraFields : List String := ["tags"]

/-- All fields UpdateForm exposes. -/
def UpdateForm.exposedFields : List String :=
  UpdateForm.metaFields ++ UpdateForm.declaredExtraFields

/-! ## CollaboratorsForm -/

/-- Modelled from the spec: get_user_model().objects.get(username=add).
Django get returns the unique match, raises DoesNotExist on no match and
MultipleObjectsReturned on several; both are caught by the bare except in
CollaboratorsForm.clean. -/
def getUserByUsername (users : List User) (name : String) :
    Except String User :=
  match users.filter (fun u => u.username == name) with
  | [u] => .ok u
  | [] => .error "DoesNotExist"
  | _ => .error "MultipleObjectsReturned"

/-- Environment of CollaboratorsForm.clean: the user table, the instance
maintainer, and the cleaned form data produced by super().clean(). -/
structure CollabCleanEnv where
  users : List User
  maintainer : User
  /-- list(cleaned_data of collaborators). -/
  submittedCollaborators : List User
  /-- cleaned_data of add; the CharField is not required, so an empty
  submission cleans to the empty string. -/
  add : String

/-- The outcome of CollaboratorsForm.clean. -/
structure CollabCleanResult where
  collaborators : List User
  /-- self.errors of the add field. -/
  addErrors : List String
deriving DecidableEq, Repr

/-- CollaboratorsForm.clean (forms.py lines 137-149): pops add; when it is
truthy, looks the username up and either appends the user or records the
error list containing Unknown user on the add field; finally always
appends the instance maintainer to the collaborators list. -/
def CollaboratorsForm.clean (env : CollabCleanEnv) : CollabCleanResult :=
  let collab := env.submittedCollaborators
  if env.add ≠ "" then
    match getUserByUsername env.users env.add with
    | .ok u =>
      { collaborators := collab ++ [u] ++ [env.maintainer], addErrors := [] }
    | .error _ =>
      { collaborators := collab ++ [env.maintainer],
        addErrors := ["Unknown user"] }
  else
    { collaborators := collab ++ [env.maintainer], addErrors := [] }

/-! ## Migration 0002_add_field_repo_slug -/

/-- A relational column as the migration manipulates it. -/
structure Column where
  name : String
  fieldType : String
  maxLength : Option Nat
deriving DecidableEq, Repr

/-- A relational schema state: the list of columns of each table name. -/
def Schema : Type := String → List Column

/-- south.db.add_column: appends the column to the named table. -/
def addColumn (table : String) (col : Column) (s : Schema) : Schema :=
  fun t => if t = table then s t ++ [col] else s t

/-- south.db.delete_column: drops the column of the given name from the
named table. -/
def deleteColumn (table : String) (colName : String) (s : Schema) : Schema :=
  fun t => if t = table then (s t).filter (fun c => c.name != colName) else s t

/-- The parameters of the single db.add_column call in the migration's
forwards (0002_add_field_repo_slug.py lines 11-15). -/
structure AddColumnOp where
  table : String
  column : String
  fieldType : String
  maxLength : Nat
  creationDefault : String
  keepDefault : Bool
deriving DecidableEq, Repr

/-- The add_column operation of migration 0002: table scls_repo, column
slug, a SlugField of max_length 150, created with default the empty
string, default not kept in the schema. -/
def migration0002Op : AddColumnOp :=
  { table := "scls_repo", column := "slug",
    fieldType := "django.db.models.fields.SlugField", maxLength := 150,
    creationDefault := "", keepDefault := false }

/-- The column migration 0002 adds. -/
def slugColumn : Column :=
  { name := migration0002Op.column,
    fieldType := migration0002Op.fieldType,
    maxLength := some migration0002Op.maxLength }

/-- Migration.forwards (0002_add_field_repo_slug.py lines 11-15). -/
def Migration.forwards (s : Schema) : Schema :=
  addColumn migration0002Op.table slugColumn s

/-- Migration.backwards (0002_add_field_repo_slug.py lines 18-20). -/
def Migration.backwards (s : Schema) : Schema :=
  deleteColumn migration0002Op.table migration0002Op.column s

/-! ## Declared schema invariants (migration model snapshot)

The migration's models dictionary declares unique_together constraints
and field defaults for scls.softwarecollection, scls.score and scls.repo.
The database/ORM enforcement of those declarations is framework
behavior: it is modelled here as an insert operation that rejects a row
clashing with a stored row on the declared unique columns, and a row
constructor that fills unspecified fields with the declared defaults. -/

/-- A stored scls_softwarecollection row, reduced to the declared unique
columns and the defaulted columns named by the claim. -/
structure SclRow where
  maintainer : Nat
  name : String
  download_count : Int
  auto_sync : Bool
  need_sync : Bool
  approved : Bool
deriving DecidableEq, Repr

/-- Creation input for a scls_softwarecollection row: `none` means the
field was not specified, so the declared default applies. -/
structure SclInput where
  maintainer : Nat
  name : String
  download_count : Option Int
  auto_sync : Option Bool
  need_sync : Option Bool
  approved : Option Bool
deriving DecidableEq, Repr

/-- Builds a scls_softwarecollection row, applying the defaults declared
in the migration snapshot: download_count 0, auto_sync True, need_sync
True, approved False. -/
def mkSclRow (i : SclInput) : SclRow :=
  { maintainer := i.maintainer, name := i.name,
    download_count := i.download_count.getD 0,
    auto_sync := i.auto_sync.getD true,
    need_sync := i.need_sync.getD true,
    approved := i.approved.getD false }

/-- The unique_together key declared for scls.softwarecollection:
(maintainer, name). -/
def sclKey (r : SclRow) : Nat × String := (r.maintainer, r.name)

/-- A stored scls_score row. -/
structure ScoreRow where
  scl : Nat
  user : Nat
  score : Int
deriving DecidableEq, Repr

/-- The unique_together key declared for scls.score: (scl, user). -/
def scoreKey (r : ScoreRow) : Nat × Nat := (r.scl, r.user)

/-- A stored scls_repo row, reduced to the declared unique columns and
the defaulted columns named by the claim. -/
structure RepoRow where
  scl : Nat
  name : String
  download_count : Int
  auto_sync : Bool
  need_sync : Bool
  enabled : Bool
deriving DecidableEq, Repr

/-- Creation input for a scls_repo row. -/
structure RepoInput where
  scl : Nat
  name : String
  download_count : Option Int
  auto_sync : Option Bool
  need_sync : Option Bool
  enabled : Option Bool
deriving DecidableEq, Repr

/-- Builds a scls_repo row, applying the defaults declared in the
migration snapshot: download_count 0, auto_sync True, need_sync True,
enabled True. -/
def mkRepoRow (i : RepoInput) : RepoRow :=
  { scl := i.scl, name := i.name,
    download_count := i.download_count.getD 0,
    auto_sync := i.auto_sync.getD true,
    need_sync := i.need_sync.getD true,
    enabled := i.enabled.getD true }

/-- The unique_together key declared for scls.repo: (scl, name). -/
def repoKey (r : RepoRow) : Nat × String := (r.scl, r.name)

/-- Modelled from the spec: database insertion under a declared
unique_together constraint.  The row is stored only when no stored row
shares its key; otherwise the insert is rejected. -/
def insertUnique {R K : Type} [DecidableEq K] (key : R → K)
    (db : List R) (row : R) : Option (List R) :=
  if db.any (fun r => decide (key r = key row)) then none
  else some (db ++ [row])

/-- Runs a sequence of creations against a table, starting from a given
state; a rejected insert leaves the table unchanged. -/
def insertAll {R K I : Type} [DecidableEq K] (key : R → K) (mk : I → R) :
    List I → List R → List R
  | [], db => db
  | i :: is, db =>
    match insertUnique key db (mk i) with
    | none => insertAll key mk is db
    | some db' => insertAll key mk is db'

/-- The scls_softwarecollection table reached by a creation sequence from
the empty table. -/
def sclTable (inputs : List SclInput) : List SclRow :=
  insertAll sclKey mkSclRow inputs []

/-- The scls_score table reached by a creation sequence from the empty
table (scores have no defaulted fields). -/
def scoreTable (inputs : List ScoreRow) : List ScoreRow :=
  insertAll scoreKey id inputs []

/-- The scls_repo table reached by a creation sequence from the empty
table. -/
def repoTable (inputs : List RepoInput) : List RepoRow :=
  insertAll repoKey mkRepoRow inputs []

/-- No two stored rows share the declared unique key. -/
def UniqueKeys {R K : Type} (key : R → K) (db : List R) : Prop :=
  db.Pairwise (fun a b => key a ≠ key b)

theorem insertUnique_uniqueKeys {R K : Type} [DecidableEq K] (key : R → K)
    {db db' : List R} {row : R} (h : insertUnique key db row = some db')
    (hdb : UniqueKeys key db) : UniqueKeys key db' := by
  unfold insertUnique at h
  by_cases hc : db.any (fun r => decide (key r = key row)) = true
  · simp [hc] at h
  · simp [hc] at h
    subst h
    refine List.pairwise_append.mpr ⟨hdb, List.pairwise_singleton _ _, ?_⟩
    intro a ha b hb
    simp at hb
    subst hb
    simp [List.any_eq_true] at hc
    exact hc a ha

theorem insertAll_uniqueKeys {R K I : Type} [DecidableEq K] (key : R → K)
    (mk : I → R) (inputs : List I) (db : List R)
    (hdb : UniqueKeys key db) : UniqueKeys key (insertAll key mk inputs db) := by
  induction inputs generalizing db with
  | nil => simpa [insertAll] using hdb
  | cons i is ih =>
    unfold insertAll
    cases h : insertUnique key db (mk i) with
    | none => exact ih db hdb
    | some db' => exact ih db' (insertUnique_uniqueKeys key h hdb)

/-! ## Helper lemmas -/

/-- On success, CreateForm.save returns the instance with maintainer,
slug and title overwritten and the full effect trace of the cascade. -/
theorem createSave_ok_shape (env : CreateSaveEnv) (commit : Bool)
    (obj : SCL) (effs : List Effect)
    (h : CreateForm.save env commit = Except.ok (obj, effs)) :
    obj.maintainer = env.requestUser ∧ obj.name = env.formObj.name ∧
    obj.slug = env.requestUser.username ++ "/" ++ env.formObj.name ∧
    effs = [Effect.syncCoprTexts, Effect.makeDirs env.reposRoot,
            Effect.dbSave, Effect.syncCoprRepos, Effect.addAutoTags,
            Effect.collaboratorsAdd env.requestUser] := by
  unfold CreateForm.save modelFormSave at h
  cases h1 : env.syncCoprTextsResult with
  | error e => rw [h1] at h; exact absurd h (by simp)
  | ok u1 =>
    rw [h1] at h
    cases h2 : env.makedirsResult with
    | error e => rw [h2] at h; exact absurd h (by simp)
    | ok u2 =>
      rw [h2] at h
      cases h3 : env.syncCoprReposResult with
      | error e => rw [h3] at h; exact absurd h (by simp)
      | ok u3 =>
        rw [h3] at h
        cases h4 : env.addAutoTagsResult with
        | error e => rw [h4] at h; exact absurd h (by simp)
        | ok u4 =>
          rw [h4] at h
          simp only [Except.ok.injEq, Prod.mk.injEq] at h
          obtain ⟨hobj, heffs⟩ := h
          subst hobj
          subst heffs
          refine ⟨rfl, rfl, rfl, rfl⟩

/-- In a user table with pairwise distinct usernames, filtering on the
username of a member yields exactly that member. -/
theorem filter_username_singleton (users : List User) (add : String)
    (hnd : (users.map User.username).Nodup) (u : User) (hu : u ∈ users)
    (hname : u.username = add) :
    users.filter (fun v => v.username == add) = [u] := by
  induction users with
  | nil => cases hu
  | cons v vs ih =>
    rw [List.map_cons, List.nodup_cons] at hnd
    obtain ⟨hv, hnd'⟩ := hnd
    rcases List.mem_cons.mp hu with h | h
    · subst h
      rw [List.filter_cons_of_pos (by simp [hname])]
      have : vs.filter (fun w => w.username == add) = [] := by
        apply List.filter_eq_nil_iff.mpr
        intro w hw
        simp only [beq_iff_eq]
        intro hww
        exact hv (by rw [hname, ← hww]; exact List.mem_map_of_mem User.username hw)
      rw [this]
    · have hvne : v.username ≠ add := by
        intro hh
        apply hv
        rw [hh, ← hname]
        exact List.mem_map_of_mem User.username h
      rw [List.filter_cons_of_neg (by simp [hvne])]
      exact ih hnd' h

/-! ## Concrete inputs used by the witnesses -/

/-- A CreateForm.save environment in which every external call succeeds. -/
def createSaveEnvBase : CreateSaveEnv :=
  { requestUser := { username := "alice" },
    formObj :=
      { maintainer := { username := "bob" }, name := "mycoll", slug := "",
        title := "", copr_username := "alice", copr_name := "proj",
        policy := "DEV", tags := "", collaborators := [] },
    reposRoot := "/srv/repos/alice/mycoll",
    syncCoprTextsResult := Except.ok (), makedirsResult := Except.ok (),
    syncCoprReposResult := Except.ok (), addAutoTagsResult := Except.ok () }

/-- The instance createSaveEnvBase's save returns. -/
def createSaveObjExample : SCL :=
  { maintainer := { username := "alice" }, name := "mycoll",
    slug := "alice/mycoll", title := "Mycoll", copr_username := "alice",
    copr_name := "proj", policy := "DEV", tags := "",
    collaborators := [{ username := "alice" }] }

/-- The effect trace createSaveEnvBase's save produces. -/
def createSaveEffsExample : List Effect :=
  [Effect.syncCoprTexts, Effect.makeDirs "/srv/repos/alice/mycoll",
   Effect.dbSave, Effect.syncCoprRepos, Effect.addAutoTags,
   Effect.collaboratorsAdd { username := "alice" }]

/-- An UpdateForm.save environment in which every external call succeeds. -/
def updateSaveEnvBase : UpdateSaveEnv :=
  { formObj :=
      { maintainer := { username := "alice" }, name := "mycoll",
        slug := "alice/mycoll", title := "My Coll", copr_username := "alice",
        copr_name := "proj", policy := "DEV", tags := "old",
        collaborators := [{ username := "alice" }] },
    cleanedTags := "python scl",
    syncCoprReposResult := Except.ok (), addAutoTagsResult := Except.ok () }

/-- An UpdateForm.__init__ environment whose Copr proxy call fails. -/
def updateInitEnvFail : UpdateInitEnv :=
  { requestCoprUsername := none, instanceCoprUsername := "alice",
    coprnamesResult := fun _ => Except.error "copr down",
    instanceTagsEditString := "", instancePolicy := "DEV" }

/-! ## Claims -/

/-- C1: For every valid CreateForm, save produces a SoftwareCollection
whose slug equals the maintainer's username, a slash, and the
collection's name, in that order. -/
theorem createForm_save_sets_slug (env : CreateSaveEnv) (commit : Bool)
    (obj : SCL) (effs : List Effect)
    (h : CreateForm.save env commit = Except.ok (obj, effs)) :
    obj.slug = obj.maintainer.username ++ "/" ++ obj.name := by
  obtain ⟨hm, hn, hs, _⟩ := createSave_ok_shape env commit obj effs h
  rw [hm, hn, hs]

/-- Witness for C1 at a concrete environment. -/
theorem createForm_save_sets_slug_witness :
    createSaveObjExample.slug =
      createSaveObjExample.maintainer.username ++ "/" ++
        createSaveObjExample.name :=
  createForm_save_sets_slug createSaveEnvBase true createSaveObjExample
    createSaveEffsExample rfl

/-- C4: Every successful CreateForm.save performs the cascade of syncing
copr texts, creating the repos root directory, syncing copr repos, adding
auto tags, and adding the maintainer to the collaborators relation; every
successful UpdateForm.save assigns the cleaned tags, syncs copr repos and
adds auto tags. -/
theorem form_save_cascade :
    (∀ (env : CreateSaveEnv) (commit : Bool) (obj : SCL)
      (effs : List Effect),
      CreateForm.save env commit = Except.ok (obj, effs) →
      Effect.syncCoprTexts ∈ effs ∧
      Effect.makeDirs env.reposRoot ∈ effs ∧
      Effect.syncCoprRepos ∈ effs ∧
      Effect.addAutoTags ∈ effs ∧
      Effect.collaboratorsAdd obj.maintainer ∈ effs) ∧
    (∀ (env : UpdateSaveEnv) (commit : Bool) (obj : SCL)
      (effs : List Effect),
      UpdateForm.save env commit = Except.ok (obj, effs) →
      obj.tags = env.cleanedTags ∧
      Effect.syncCoprRepos ∈ effs ∧
      Effect.addAutoTags ∈ effs) := by
  constructor
  · intro env commit obj effs h
    obtain ⟨hm, _, _, heffs⟩ := createSave_ok_shape env commit obj effs h
    subst heffs
    rw [hm]
    refine ⟨by simp, by simp, by simp, by simp, by simp⟩
  · intro env commit obj effs h
    unfold UpdateForm.save modelFormSave at h
    cases h1 : env.syncCoprReposResult with
    | error e => rw [h1] at h; exact absurd h (by simp)
    | ok u1 =>
      rw [h1] at h
      cases h2 : env.addAutoTagsResult with
      | error e => rw [h2] at h; exact absurd h (by simp)
      | ok u2 =>
        rw [h2] at h
        simp only [Except.ok.injEq, Prod.mk.injEq] at h
        obtain ⟨hobj, heffs⟩ := h
        subst hobj
        subst heffs
        refine ⟨rfl, by simp, by simp⟩

/-- Witness for C4 at concrete environments. -/
theorem form_save_cascade_witness :
    (Effect.syncCoprTexts ∈ createSaveEffsExample ∧
     Effect.makeDirs createSaveEnvBase.reposRoot ∈ createSaveEffsExample ∧
     Effect.syncCoprRepos ∈ createSaveEffsExample ∧
     Effect.addAutoTags ∈ createSaveEffsExample ∧
     Effect.collaboratorsAdd createSaveObjExample.maintainer ∈
       createSaveEffsExample) ∧
    ({ updateSaveEnvBase.formObj with tags := "python scl" } : SCL).tags =
        updateSaveEnvBase.cleanedTags ∧
      Effect.syncCoprRepos ∈
        [Effect.dbSave, Effect.syncCoprRepos, Effect.addAutoTags] ∧
      Effect.addAutoTags ∈
        [Effect.dbSave, Effect.syncCoprRepos, Effect.addAutoTags] :=
  ⟨form_save_cascade.1 createSaveEnvBase true createSaveObjExample
      createSaveEffsExample rfl,
   form_save_cascade.2 updateSaveEnvBase true
      { updateSaveEnvBase.formObj with tags := "python scl" }
      [Effect.dbSave, Effect.syncCoprRepos, Effect.addAutoTags] rfl⟩

/-- C7: failures of the external calls made during form construction or
save propagate uncaught: the Copr lookup in UpdateForm.__init__, and the
copr-text sync, directory creation and copr-repo sync in
CreateForm.save, each turn the whole operation into that error. -/
theorem external_failures_propagate :
    (∀ (env : UpdateInitEnv) (e : String),
      env.coprnamesResult (UpdateForm.resolvedCoprUsername env) =
        Except.error e →
      UpdateForm.init env = Except.error e) ∧
    (∀ (env : CreateSaveEnv) (commit : Bool) (e : String),
      env.syncCoprTextsResult = Except.error e →
      CreateForm.save env commit = Except.error e) ∧
    (∀ (env : CreateSaveEnv) (commit : Bool) (e : String),
      env.syncCoprTextsResult = Except.ok () →
      env.makedirsResult = Except.error e →
      CreateForm.save env commit = Except.error e) ∧
    (∀ (env : CreateSaveEnv) (commit : Bool) (e : String),
      env.syncCoprTextsResult = Except.ok () →
      env.makedirsResult = Except.ok () →
      env.syncCoprReposResult = Except.error e →
      CreateForm.save env commit = Except.error e) := by
  refine ⟨?_, ?_, ?_, ?_⟩
  · intro env e h
    unfold UpdateForm.init
    rw [h]
  · intro env commit e h
    unfold CreateForm.save modelFormSave
    rw [h]
  · intro env commit e h1 h2
    unfold CreateForm.save modelFormSave
    rw [h1, h2]
  · intro env commit e h1 h2 h3
    unfold CreateForm.save modelFormSave
    rw [h1, h2, h3]

/-- Witness for C7 at concrete environments. -/
theorem external_failures_propagate_witness :
    UpdateForm.init updateInitEnvFail = Except.error "copr down" ∧
    CreateForm.save
      { createSaveEnvBase with syncCoprTextsResult := Except.error "t" }
      true = Except.error "t" ∧
    CreateForm.save
      { createSaveEnvBase with makedirsResult := Except.error "d" }
      true = Except.error "d" ∧
    CreateForm.save
      { createSaveEnvBase with syncCoprReposResult := Except.error "r" }
      true = Except.error "r" :=
  ⟨external_failures_propagate.1 updateInitEnvFail "copr down" rfl,
   external_failures_propagate.2.1 _ true "t" rfl,
   external_failures_propagate.2.2.1 _ true "d" rfl rfl,
   external_failures_propagate.2.2.2 _ true "r" rfl rfl rfl⟩

/-- C10: CreateForm.save ignores its commit parameter: any two commit
values give the same outcome, and every successful save still persists
the object through the explicit obj.save() call. -/
theorem createForm_save_ignores_commit :
    (∀ (env : CreateSaveEnv) (c1 c2 : Bool),
      CreateForm.save env c1 = CreateForm.save env c2) ∧
    (∀ (env : CreateSaveEnv) (commit : Bool) (obj : SCL)
      (effs : List Effect),
      CreateForm.save env commit = Except.ok (obj, effs) →
      Effect.dbSave ∈ effs) := by
  constructor
  · intro env c1 c2
    rfl
  · intro env commit obj effs h
    obtain ⟨_, _, _, heffs⟩ := createSave_ok_shape env commit obj effs h
    subst heffs
    simp

/-- Witness for C10 at a concrete environment. -/
theorem createForm_save_ignores_commit_witness :
    CreateForm.save createSaveEnvBase true =
      CreateForm.save createSaveEnvBase false ∧
    Effect.dbSave ∈ createSaveEffsExample :=
  ⟨createForm_save_ignores_commit.1 createSaveEnvBase true false,
   createForm_save_ignores_commit.2 createSaveEnvBase true
     createSaveObjExample createSaveEffsExample rfl⟩

/-- C2: when the add field is a non-empty username matching no user,
clean records the error list containing exactly Unknown user on the add
field; when it names an existing user (usernames are unique per the auth
schema), no error is recorded and that user is appended to the cleaned
collaborators list. -/
theorem collabForm_clean_add (env : CollabCleanEnv) (hadd : env.add ≠ "") :
    ((∀ u ∈ env.users, u.username ≠ env.add) →
      (CollaboratorsForm.clean env).addErrors = ["Unknown user"] ∧
      (CollaboratorsForm.clean env).collaborators =
        env.submittedCollaborators ++ [env.maintainer]) ∧
    (∀ u : User, (env.users.map User.username).Nodup → u ∈ env.users →
      u.username = env.add →
      (CollaboratorsForm.clean env).addErrors = [] ∧
      (CollaboratorsForm.clean env).collaborators =
        env.submittedCollaborators ++ [u] ++ [env.maintainer]) := by
  constructor
  · intro hnone
    have hfilter : env.users.filter (fun v => v.username == env.add) = [] :=
      List.filter_eq_nil_iff.mpr (by intro a ha; simp [hnone a ha])
    simp [CollaboratorsForm.clean, getUserByUsername, hfilter, hadd]
  · intro u hnd hu hname
    have hfilter := filter_username_singleton env.users env.add hnd u hu hname
    simp [CollaboratorsForm.clean, getUserByUsername, hfilter, hadd]

/-- Concrete clean environment whose add field matches no user. -/
def collabEnvUnknown : CollabCleanEnv :=
  { users := [{ username := "alice" }], maintainer := { username := "maia" },
    submittedCollaborators := [], add := "ghost" }

/-- Concrete clean environment whose add field names an existing user. -/
def collabEnvKnown : CollabCleanEnv :=
  { users := [{ username := "alice" }, { username := "bob" }],
    maintainer := { username := "maia" },
    submittedCollaborators := [{ username := "alice" }], add := "bob" }

/-- Witness for C2 at concrete environments. -/
theorem collabForm_clean_add_witness :
    ((CollaboratorsForm.clean collabEnvUnknown).addErrors =
        ["Unknown user"] ∧
      (CollaboratorsForm.clean collabEnvUnknown).collaborators =
        collabEnvUnknown.submittedCollaborators ++
          [collabEnvUnknown.maintainer]) ∧
    ((CollaboratorsForm.clean collabEnvKnown).addErrors = [] ∧
      (CollaboratorsForm.clean collabEnvKnown).collaborators =
        collabEnvKnown.submittedCollaborators ++ [{ username := "bob" }] ++
          [collabEnvKnown.maintainer]) :=
  ⟨(collabForm_clean_add collabEnvUnknown (by decide)).1 (by decide),
   (collabForm_clean_add collabEnvKnown (by decide)).2 { username := "bob" }
     (by decide) (by decide) rfl⟩

/-- C8: after CollaboratorsForm.clean, the instance maintainer is always a
member of the cleaned collaborators list, whatever the add field held and
whether or not the lookup failed. -/
theorem collabForm_clean_maintainer_member (env : CollabCleanEnv) :
    env.maintainer ∈ (CollaboratorsForm.clean env).collaborators := by
  unfold CollaboratorsForm.clean
  by_cases hadd : env.add ≠ ""
  · rw [if_pos hadd]
    cases h : getUserByUsername env.users env.add with
    | ok u => simp
    | error e => simp
  · rw [if_neg hadd]
    simp

/-- C3: backwards is the inverse of forwards: on any schema whose
scls_repo table has no slug column, adding the slug column and then
deleting it restores the original schema. -/
theorem migration0002_backwards_inverts_forwards (s : Schema)
    (h : ∀ c ∈ s "scls_repo", c.name ≠ "slug") :
    Migration.backwards (Migration.forwards s) = s := by
  funext t
  show deleteColumn "scls_repo" "slug" (addColumn "scls_repo" slugColumn s) t
    = s t
  by_cases ht : t = "scls_repo"
  · subst ht
    unfold deleteColumn addColumn
    rw [if_pos rfl, if_pos rfl, List.filter_append,
        List.filter_eq_self.mpr (fun c hc => by simpa using h c hc)]
    simp [slugColumn, migration0002Op]
  · unfold deleteColumn addColumn
    rw [if_neg ht, if_neg ht]

/-- A schema whose every table holds a single id column. -/
def schemaExample : Schema := fun _ =>
  [{ name := "id", fieldType := "django.db.models.fields.AutoField",
     maxLength := none }]

/-- Witness for C3 at a concrete schema. -/
theorem migration0002_backwards_inverts_forwards_witness :
    (∀ c ∈ schemaExample "scls_repo", c.name ≠ "slug") ∧
    Migration.backwards (Migration.forwards schemaExample) = schemaExample :=
  ⟨by decide,
   migration0002_backwards_inverts_forwards schemaExample (by decide)⟩

/-- C5: in every table state reachable by creations from the empty table,
no two softwarecollection rows share (maintainer, name), no two score
rows share (scl, user), and no two repo rows share (scl, name); and a
creation that leaves the defaulted fields unspecified stores the declared
defaults (download_count 0, auto_sync, need_sync and enabled true,
approved false). -/
theorem declared_schema_invariants :
    (∀ inputs : List SclInput, UniqueKeys sclKey (sclTable inputs)) ∧
    (∀ inputs : List ScoreRow, UniqueKeys scoreKey (scoreTable inputs)) ∧
    (∀ inputs : List RepoInput, UniqueKeys repoKey (repoTable inputs)) ∧
    (∀ (m : Nat) (n : String),
      mkSclRow { maintainer := m, name := n, download_count := none,
                 auto_sync := none, need_sync := none, approved := none } =
        { maintainer := m, name := n, download_count := 0,
          auto_sync := true, need_sync := true, approved := false }) ∧
    (∀ (sc : Nat) (n : String),
      mkRepoRow { scl := sc, name := n, download_count := none,
                  auto_sync := none, need_sync := none, enabled := none } =
        { scl := sc, name := n, download_count := 0, auto_sync := true,
          need_sync := true, enabled := true }) := by
  refine ⟨?_, ?_, ?_, fun m n => rfl, fun sc n => rfl⟩
  · intro inputs
    exact insertAll_uniqueKeys sclKey mkSclRow inputs [] List.Pairwise.nil
  · intro inputs
    exact insertAll_uniqueKeys scoreKey id inputs [] List.Pairwise.nil
  · intro inputs
    exact insertAll_uniqueKeys repoKey mkRepoRow inputs [] List.Pairwise.nil

/-- C6: the declared external contracts: CreateForm exposes exactly the
five Meta fields, UpdateForm exposes exactly its seven Meta fields plus
the extra tags field, and the migration's forwards adds to scls_repo a
slug column of slug type with max_length 150, created with default the
empty string and with the default not kept in the schema. -/
theorem declared_external_contracts :
    CreateForm.exposedFields =
      ["copr_username", "copr_name", "maintainer", "name", "policy"] ∧
    UpdateForm.exposedFields =
      ["title", "description", "instructions", "policy", "copr_username",
       "copr_name", "auto_sync", "tags"] ∧
    migration0002Op.table = "scls_repo" ∧
    migration0002Op.column = "slug" ∧
    migration0002Op.fieldType = "django.db.models.fields.SlugField" ∧
    migration0002Op.maxLength = 150 ∧
    migration0002Op.creationDefault = "" ∧
    migration0002Op.keepDefault = false ∧
    slugColumn =
      { name := "slug", fieldType := "django.db.models.fields.SlugField",
        maxLength := some 150 } ∧
    (∀ s : Schema, Migration.forwards s "scls_repo" =
      s "scls_repo" ++ [slugColumn]) :=
  ⟨rfl, rfl, rfl, rfl, rfl, rfl, rfl, rfl, rfl, fun s => rfl⟩

/-- C9: CreateForm.__init__ performs the Copr lookup only when the
resolved copr_username is non-empty: on an empty username no lookup
happens and the copr_name choice list is empty. -/
theorem createForm_init_lookup_guard (env : CreateInitEnv) :
    (CreateForm.resolvedCoprUsername env = "" →
      (CreateForm.init env).2 = [] ∧
      (CreateForm.init env).1.coprNameChoices = []) ∧
    (∀ u : String, Effect.coprNamesLookup u ∈ (CreateForm.init env).2 →
      CreateForm.resolvedCoprUsername env ≠ "") := by
  by_cases hcu : CreateForm.resolvedCoprUsername env = ""
  · refine ⟨fun _ => ?_, fun u hu => ?_⟩
    · simp [CreateForm.init, hcu]
    · exfalso
      simp [CreateForm.init, hcu] at hu
  · exact ⟨fun h => absurd h hcu, fun u _ => hcu⟩

/-- Concrete init environment resolving to the empty copr_username. -/
def createInitEnvNoUsername : CreateInitEnv :=
  { requestCoprUsername := some "", latestSclCoprUsername := none,
    requestUserUsername := "alice", coprnames := fun _ => [] }

/-- Concrete init environment resolving to a non-empty copr_username. -/
def createInitEnvAlice : CreateInitEnv :=
  { requestCoprUsername := none, latestSclCoprUsername := none,
    requestUserUsername := "alice",
    coprnames := fun _ => ["proj1", "proj2"] }

/-- Witness for C9 at concrete environments. -/
theorem createForm_init_lookup_guard_witness :
    ((CreateForm.init createInitEnvNoUsername).2 = [] ∧
     (CreateForm.init createInitEnvNoUsername).1.coprNameChoices = []) ∧
    CreateForm.resolvedCoprUsername createInitEnvAlice ≠ "" :=
  ⟨(createForm_init_lookup_guard createInitEnvNoUsername).1 rfl,
   (createForm_init_lookup_guard createInitEnvAlice).2 "alice" (by decide)⟩
